import Mathlib

/-!
Shallow embedding of `src/server.js` (maison backend): an Express HTTP server
exposing CRUD endpoints for a product catalog and a hero-image carousel,
backed by MongoDB (via mongoose) and Cloudinary uploads.

Modelling conventions:
- The Cloudinary upload adapter (`uploadToCloudinary` / `uploadHeroToCloudinary`)
  is a parameter `up : Buffer → Option String`; `some url` models a resolved
  upload whose `result.secure_url` is `url`, `none` models a rejected upload.
- `Promise.all` over the per-file uploads is `promiseAll`: it fails if any
  single upload fails and otherwise collects the hosted URLs in submission
  order, exactly as `await Promise.all(req.files.map(...))` does.
- The document store is an explicit `Store` value threaded through each
  handler; store-assigned ids and timestamps arrive as parameters
  (`newId`, `now`).
- Numbers produced by the JS `Number(...)` coercion are `JsNum`
  (an integer or `nan`); JSON body scalars are `JsVal`.
- Each handler returns `(status × body) × store`.
-/

namespace Maison

/-- A scalar value as delivered by the HTTP body parser: multipart text
fields arrive as strings, JSON bodies may carry native booleans, numbers,
null, or omit the key entirely (`undef`). -/
inductive JsVal where
  | str (s : String)
  | boolean (b : Bool)
  | numv (n : Int)
  | nullv
  | undef
deriving DecidableEq, Repr

/-- Result of the JS `Number(...)` coercion: a number or `NaN`.
Numeric values are modelled as integers. -/
inductive JsNum where
  | num (n : Int)
  | nan
deriving DecidableEq, Repr

/-- The JS `Number(x)` coercion applied to a multipart text field that may be
absent: `Number(undefined)` is `NaN`, `Number("")` is `0`, a numeric string
parses, anything else is `NaN` (numerals modelled as integers). -/
def jsNumber : Option String → JsNum
  | none => JsNum.nan
  | some s =>
    match s.toInt? with
    | some n => JsNum.num n
    | none => if s = "" then JsNum.num 0 else JsNum.nan

/-- JS truthiness of a multipart text field: `undefined` and the empty
string are falsy, any other string is truthy (`quantity ? ... : 0`). -/
def truthy : Option String → Bool
  | none => false
  | some s => s ≠ ""

/-- An uploaded file's in-memory buffer (multer memoryStorage); content
stands in for the raw bytes. -/
abbrev Buffer := String

/-- A document of the `Product` collection (productSchema,
src/server.js:44-54). `name`/`category`/`description` are kept as the
values the handler supplied (possibly absent); `createdAt` is the
store-managed timestamp. -/
structure Product where
  id : Nat
  name : Option String
  category : Option String
  price : JsNum
  mainImage : String
  otherImages : List String
  description : Option String
  quantity : JsNum
  createdAt : Nat
deriving DecidableEq, Repr

/-- A document of the `HeroImage` collection (heroImageSchema,
src/server.js:59-64). -/
structure HeroImage where
  id : Nat
  imageUrl : String
  isActive : Bool
  createdAt : Nat
deriving DecidableEq, Repr

/-- The document store: the two collections the server uses. -/
structure Store where
  products : List Product
  heroes : List HeroImage
deriving DecidableEq, Repr

/-- JSON response bodies the handlers produce. -/
inductive Body where
  | prod (p : Product)
  | prodList (ps : List Product)
  | hero (h : HeroImage)
  | heroList (hs : List HeroImage)
  | msg (s : String)
  | err (s : String)
  | jnull
deriving DecidableEq, Repr

/-- HTTP status code paired with the JSON body. -/
abbrev Response := Nat × Body

/-- Text fields of a product create/update request body
(`const { name, category, price, description, quantity } = req.body`);
`none` models an omitted field. -/
structure ProductBody where
  name : Option String
  category : Option String
  price : Option String
  description : Option String
  quantity : Option String
deriving DecidableEq, Repr

/-- Models `await Promise.all(files.map(file => uploadToCloudinary(file.buffer)))`:
rejects (returns `none`) as soon as any upload rejects, otherwise resolves
with the hosted URLs in submission order. -/
def promiseAll (up : Buffer → Option String) : List Buffer → Option (List String)
  | [] => some []
  | f :: fs =>
    match up f, promiseAll up fs with
    | some u, some us => some (u :: us)
    | _, _ => none

/-- Embeds `app.post('/api/products')` (src/server.js:106-137).
Zero files give `400 No images uploaded`; otherwise all files are uploaded
via `promiseAll`, a rejected upload yields `500 Server error` with the store
untouched; on success `uploadResults[0].secure_url` becomes `mainImage`,
`uploadResults.slice(1)` becomes `otherImages`, and the new document is
appended. (The `some []` branch mirrors the JS `TypeError` → catch → 500
that `uploadResults[0]` would raise on an empty result list; it is
unreachable because files are nonempty there.) -/
def createProduct (up : Buffer → Option String) (body : ProductBody)
    (files : List Buffer) (newId now : Nat) (s : Store) : Response × Store :=
  if files.isEmpty then
    ((400, Body.err "No images uploaded"), s)
  else
    match promiseAll up files with
    | none => ((500, Body.err "Server error"), s)
    | some [] => ((500, Body.err "Server error"), s)
    | some (mainUrl :: otherUrls) =>
      let newProduct : Product :=
        { id := newId
          name := body.name
          category := body.category
          price := jsNumber body.price
          mainImage := mainUrl
          otherImages := otherUrls
          description := body.description
          quantity := if truthy body.quantity then jsNumber body.quantity else JsNum.num 0
          createdAt := now }
      ((201, Body.prod newProduct), { s with products := s.products ++ [newProduct] })

/-- Modelled from the spec: the document store's
`find().sort({ createdAt: -1 })` returns all documents of the collection
ordered by `createdAt` descending (mongoose/MongoDB client, not in src/). -/
def sortProductsDesc (ps : List Product) : List Product :=
  ps.mergeSort (fun a b => decide (b.createdAt ≤ a.createdAt))

/-- Modelled from the spec: same store-side descending sort for the
HeroImage collection. -/
def sortHeroesDesc (hs : List HeroImage) : List HeroImage :=
  hs.mergeSort (fun a b => decide (b.createdAt ≤ a.createdAt))

/-- Embeds `app.get('/api/products')` (src/server.js:140-147): list all
products newest first; the store is not modified. -/
def listProducts (s : Store) : Response × Store :=
  ((200, Body.prodList (sortProductsDesc s.products)), s)

/-- Embeds `app.delete('/api/products/:id')` (src/server.js:150-157).
`findByIdAndDelete` is modelled from the spec: remove-by-id, a no-op when
the id is absent; the handler reports success unconditionally. -/
def deleteProduct (id : Nat) (s : Store) : Response × Store :=
  ((200, Body.msg "Product deleted"),
   { s with products := s.products.filter (fun p => p.id != id) })

/-- The `updateData` object built by the update handler
(src/server.js:163-170): text fields pass through as supplied (`undefined`
when omitted), `price`/`quantity` are always `Number(...)`-coerced, the
image fields are present only when new files were uploaded. -/
structure UpdateData where
  name : Option String
  category : Option String
  price : JsNum
  description : Option String
  quantity : JsNum
  mainImage : Option String
  otherImages : Option (List String)
deriving DecidableEq, Repr

/-- Modelled from the spec: how the store applies one update document to a
stored Product — keys whose value is `undefined` are stripped, every other
key replaces the stored field (mongoose `findByIdAndUpdate`, not in src/). -/
def applyUpdate (p : Product) (u : UpdateData) : Product :=
  { p with
    name := match u.name with | some v => some v | none => p.name
    category := match u.category with | some v => some v | none => p.category
    price := u.price
    description := match u.description with | some v => some v | none => p.description
    quantity := u.quantity
    mainImage := match u.mainImage with | some v => v | none => p.mainImage
    otherImages := match u.otherImages with | some v => v | none => p.otherImages }

/-- Modelled from the spec: `Product.findByIdAndUpdate(id, updateData,
{ new: true })` — `null` (hence a 200 `null` JSON response) when the id is
absent, otherwise the updated document is returned and persisted. -/
def finishUpdate (id : Nat) (u : UpdateData) (s : Store) : Response × Store :=
  match s.products.find? (fun p => p.id == id) with
  | none => ((200, Body.jnull), s)
  | some p =>
    let p' := applyUpdate p u
    ((200, Body.prod p'),
     { s with products := s.products.map (fun x => if x.id == id then p' else x) })

/-- Embeds `app.put('/api/products/:id')` (src/server.js:160-179).
`updateData` always carries the coerced `price` and `quantity`; when files
are supplied they are all uploaded and `mainImage`/`otherImages` are
wholesale-replaced, a rejected upload aborting with 500 before any
persistence. -/
def updateProduct (up : Buffer → Option String) (body : ProductBody)
    (files : List Buffer) (id : Nat) (s : Store) : Response × Store :=
  let base : UpdateData :=
    { name := body.name
      category := body.category
      price := jsNumber body.price
      description := body.description
      quantity := jsNumber body.quantity
      mainImage := none
      otherImages := none }
  if files.isEmpty then
    finishUpdate id base s
  else
    match promiseAll up files with
    | none => ((500, Body.err "Server error"), s)
    | some [] => ((500, Body.err "Server error"), s)
    | some (mainUrl :: otherUrls) =>
      finishUpdate id
        { base with mainImage := some mainUrl, otherImages := some otherUrls } s

/-- The hero create handler's `isActive` normalization
(src/server.js:196): `req.body.isActive === 'true' || req.body.isActive === true`. -/
def heroIsActive (v : JsVal) : Bool :=
  (match v with | JsVal.str s => s == "true" | _ => false) ||
  (match v with | JsVal.boolean b => b | _ => false)

/-- Embeds `app.post('/api/hero-images')` (src/server.js:186-206):
`upload.single('image')` means at most one file (`none` models a missing
file → 400); the single upload's URL and the normalized `isActive` are
persisted as a new HeroImage. -/
def createHeroImage (up : Buffer → Option String) (isActiveVal : JsVal)
    (file : Option Buffer) (newId now : Nat) (s : Store) : Response × Store :=
  match file with
  | none => ((400, Body.err "No image uploaded"), s)
  | some f =>
    match up f with
    | none => ((500, Body.err "Server error"), s)
    | some url =>
      let hero : HeroImage :=
        { id := newId
          imageUrl := url
          isActive := heroIsActive isActiveVal
          createdAt := now }
      ((201, Body.hero hero), { s with heroes := s.heroes ++ [hero] })

/-- Embeds `app.get('/api/hero-images')` (src/server.js:209-216). -/
def listHeroImages (s : Store) : Response × Store :=
  ((200, Body.heroList (sortHeroesDesc s.heroes)), s)

/-- Embeds `app.patch('/api/hero-images/:id/toggle')` (src/server.js:219-231):
look up by id (404 when absent), flip `isActive`, save the document back
(mongoose `save` writes the document at its unique `_id`), return it. -/
def toggleHeroImage (id : Nat) (s : Store) : Response × Store :=
  match s.heroes.find? (fun h => h.id == id) with
  | none => ((404, Body.err "Hero image not found"), s)
  | some h =>
    let h' := { h with isActive := !h.isActive }
    ((200, Body.hero h'),
     { s with heroes := s.heroes.map (fun x => if x.id == h'.id then h' else x) })

/-- Embeds `app.delete('/api/hero-images/:id')` (src/server.js:234-241). -/
def deleteHeroImage (id : Nat) (s : Store) : Response × Store :=
  ((200, Body.msg "Hero image deleted"),
   { s with heroes := s.heroes.filter (fun h => h.id != id) })

/-! Helper lemmas. -/

/-- When every individual upload resolves, `Promise.all` resolves with the
per-file URLs in submission order. -/
theorem promiseAll_eq_map (up : Buffer → Option String) (urlOf : Buffer → String)
    (l : List Buffer) (h : ∀ x ∈ l, up x = some (urlOf x)) :
    promiseAll up l = some (l.map urlOf) := by
  induction l with
  | nil => rfl
  | cons a t ih =>
    have ha : up a = some (urlOf a) := h a (List.mem_cons_self a t)
    have ht : promiseAll up t = some (t.map urlOf) :=
      ih (fun x hx => h x (List.mem_cons_of_mem a hx))
    simp [promiseAll, ha, ht]

/-! Claim theorems. -/

/-- C1: a product-create request with files `f :: fs` (1 ≤ N ≤ 5) whose
uploads all succeed persists exactly one new Product whose `mainImage` is
the first file's hosted URL and whose `otherImages` are the remaining
files' hosted URLs in submission order, responding 201 with it. -/
theorem createProduct_mainImage_otherImages (up : Buffer → Option String)
    (urlOf : Buffer → String) (body : ProductBody) (f : Buffer) (fs : List Buffer)
    (_hlen : (f :: fs).length ≤ 5)
    (hup : ∀ x ∈ f :: fs, up x = some (urlOf x))
    (newId now : Nat) (s : Store) :
    ∃ p : Product,
      createProduct up body (f :: fs) newId now s
        = ((201, Body.prod p), { s with products := s.products ++ [p] }) ∧
      p.mainImage = urlOf f ∧ p.otherImages = fs.map urlOf := by
  have hpa : promiseAll up (f :: fs) = some (urlOf f :: fs.map urlOf) :=
    promiseAll_eq_map up urlOf (f :: fs) hup
  refine ⟨{ id := newId
            name := body.name
            category := body.category
            price := jsNumber body.price
            mainImage := urlOf f
            otherImages := fs.map urlOf
            description := body.description
            quantity := if truthy body.quantity then jsNumber body.quantity else JsNum.num 0
            createdAt := now }, ?_, rfl, rfl⟩
  simp [createProduct, hpa]

/-- Witness for C1 at a concrete input: three files, identity hosting. -/
theorem createProduct_mainImage_otherImages_witness :
    ∃ p : Product,
      createProduct (fun b => some b) ⟨none, none, none, none, none⟩
          ["a", "b", "c"] 1 10 ⟨[], []⟩
        = ((201, Body.prod p),
           { products := [] ++ [p], heroes := [] }) ∧
      p.mainImage = "a" ∧ p.otherImages = ["b", "c"] :=
  createProduct_mainImage_otherImages (fun b => some b) (fun b => b)
    ⟨none, none, none, none, none⟩ "a" ["b", "c"] (by decide)
    (fun x _ => rfl) 1 10 ⟨[], []⟩

/-- C2: a product-create request with zero files responds 400 with the
store untouched, and its outcome does not depend on the upload adapter at
all (no upload is attempted). -/
theorem createProduct_no_files_400 (up up' : Buffer → Option String)
    (body : ProductBody) (newId now : Nat) (s : Store) :
    createProduct up body [] newId now s = ((400, Body.err "No images uploaded"), s) ∧
    createProduct up body [] newId now s = createProduct up' body [] newId now s := by
  exact ⟨rfl, rfl⟩

/-- C3: when any upload of a product-create or product-update request
fails (`Promise.all` rejects), both handlers respond 500 and leave the
store exactly as it was: nothing is created and nothing is modified. -/
theorem upload_failure_aborts (up : Buffer → Option String) (body : ProductBody)
    (f : Buffer) (fs : List Buffer) (id newId now : Nat) (s : Store)
    (hfail : promiseAll up (f :: fs) = none) :
    createProduct up body (f :: fs) newId now s = ((500, Body.err "Server error"), s) ∧
    updateProduct up body (f :: fs) id s = ((500, Body.err "Server error"), s) := by
  constructor
  · simp [createProduct, hfail]
  · simp [updateProduct, hfail]

/-- Witness for C3: a single file whose upload rejects. -/
theorem upload_failure_aborts_witness :
    createProduct (fun _ => none) ⟨none, none, none, none, none⟩ ["a"] 7 10 ⟨[], []⟩
      = ((500, Body.err "Server error"), ⟨[], []⟩) ∧
    updateProduct (fun _ => none) ⟨none, none, none, none, none⟩ ["a"] 3 ⟨[], []⟩
      = ((500, Body.err "Server error"), ⟨[], []⟩) :=
  upload_failure_aborts (fun _ => none) ⟨none, none, none, none, none⟩
    "a" [] 3 7 10 ⟨[], []⟩ rfl

/-- The record update that rewrites `isActive` with its current value is
the identity. -/
theorem heroImage_eta (h : HeroImage) : { h with isActive := h.isActive } = h := by
  cases h; rfl

/-- A hero found by id indeed carries that id. -/
theorem find?_hero_id {l : List HeroImage} {id : Nat} {h : HeroImage}
    (hfind : l.find? (fun x => x.id == id) = some h) : h.id = id := by
  simpa using List.find?_some hfind

/-- Looking up by id after an id-preserving rewrite of the list finds the
rewrite of the hero found before. -/
theorem find?_map_of_id (l : List HeroImage) (id : Nat) (h : HeroImage)
    (g : HeroImage → HeroImage)
    (hfind : l.find? (fun x => x.id == id) = some h)
    (hkeep : ∀ x, x.id ≠ id → g x = x)
    (hgid : ∀ x, x.id = id → (g x).id = id) :
    (l.map g).find? (fun x => x.id == id) = some (g h) := by
  induction l with
  | nil => simp at hfind
  | cons a t ih =>
    by_cases ha : a.id = id
    · have hba : (a.id == id) = true := by simpa using ha
      have hha : a = h := by simpa [List.find?_cons, hba] using hfind
      have hg : ((g a).id == id) = true := by simpa using hgid a ha
      rw [← hha]
      simp [List.find?_cons, hg]
    · have hfa : (a.id == id) = false := by simpa using ha
      have hrest : t.find? (fun x => x.id == id) = some h := by
        simpa [List.find?_cons, hfa] using hfind
      simp [List.find?_cons, hkeep a ha, hfa, ih hrest]

/-- C4: toggling a stored HeroImage responds 200 with the same record,
`isActive` replaced by its logical negation, and toggling the same id a
second time restores the entire store to its original value. -/
theorem toggle_twice_restores (id : Nat) (s : Store) (h : HeroImage)
    (hnodup : (s.heroes.map (fun x => x.id)).Nodup)
    (hfind : s.heroes.find? (fun x => x.id == id) = some h) :
    (toggleHeroImage id s).1 = (200, Body.hero { h with isActive := !h.isActive }) ∧
    (toggleHeroImage id (toggleHeroImage id s).2).2 = s := by
  have hid : h.id = id := find?_hero_id hfind
  have hmem : h ∈ s.heroes := List.mem_of_find?_eq_some hfind
  constructor
  · simp [toggleHeroImage, hfind]
  · have e1 : (toggleHeroImage id s).2
        = { s with heroes := (s.heroes.map (fun x => if x.id == h.id then { h with isActive := !h.isActive } else x)) } := by
      simp [toggleHeroImage, hfind]
    rw [e1]
    have hfind2 :
        (s.heroes.map
          (fun x => if x.id == h.id then { h with isActive := !h.isActive } else x)).find?
            (fun x => x.id == id)
          = some { h with isActive := !h.isActive } := by
      have hk : ∀ x : HeroImage, x.id ≠ id →
          (if x.id == h.id then { h with isActive := !h.isActive } else x) = x := by
        intro x hx
        have : (x.id == h.id) = false := by simp [hid, hx]
        simp [this]
      have hg : ∀ x : HeroImage, x.id = id →
          ((if x.id == h.id then { h with isActive := !h.isActive } else x) : HeroImage).id
            = id := by
        intro x hx
        simp [hx, hid]
      have := find?_map_of_id s.heroes id h
        (fun x => if x.id == h.id then { h with isActive := !h.isActive } else x) hfind hk hg
      simpa using this
    simp only [toggleHeroImage, hfind2]
    rw [List.map_map]
    have hmap : s.heroes.map
        ((fun x => if x.id == (({ h with isActive := !h.isActive } : HeroImage)).id
            then { { h with isActive := !h.isActive } with
                     isActive := !(({ h with isActive := !h.isActive } : HeroImage)).isActive }
            else x)
          ∘ (fun x => if x.id == h.id then { h with isActive := !h.isActive } else x))
        = s.heroes.map (fun x => x) := by
      apply List.map_congr_left
      intro x hx
      by_cases hxid : x.id = id
      · have hx_eq_h : x = h :=
          List.inj_on_of_nodup_map hnodup hx hmem (by rw [hxid, hid])
        subst hx_eq_h
        simp [Function.comp, Bool.not_not, heroImage_eta]
      · have hfalse : (x.id == h.id) = false := by simp [hid, hxid]
        simp [Function.comp, hfalse]
    rw [hmap, List.map_id']

/-- Witness for C4: a two-hero store, toggling the first. -/
theorem toggle_twice_restores_witness :
    (toggleHeroImage 1
        ⟨[], [⟨1, "u1", false, 5⟩, ⟨2, "u2", true, 6⟩]⟩).1
      = (200, Body.hero ⟨1, "u1", true, 5⟩) ∧
    (toggleHeroImage 1
        (toggleHeroImage 1 ⟨[], [⟨1, "u1", false, 5⟩, ⟨2, "u2", true, 6⟩]⟩).2).2
      = ⟨[], [⟨1, "u1", false, 5⟩, ⟨2, "u2", true, 6⟩]⟩ :=
  toggle_twice_restores 1 ⟨[], [⟨1, "u1", false, 5⟩, ⟨2, "u2", true, 6⟩]⟩
    ⟨1, "u1", false, 5⟩ (by decide) (by decide)

/-- C5: a toggle request whose id matches no stored HeroImage responds 404
and returns the store unchanged: nothing is created or altered. -/
theorem toggle_unknown_404 (id : Nat) (s : Store)
    (hnone : s.heroes.find? (fun x => x.id == id) = none) :
    toggleHeroImage id s = ((404, Body.err "Hero image not found"), s) := by
  simp [toggleHeroImage, hnone]

/-- Witness for C5: toggling id 9 in a store holding only hero id 1. -/
theorem toggle_unknown_404_witness :
    toggleHeroImage 9 ⟨[], [⟨1, "u1", false, 5⟩]⟩
      = ((404, Body.err "Hero image not found"), ⟨[], [⟨1, "u1", false, 5⟩]⟩) :=
  toggle_unknown_404 9 ⟨[], [⟨1, "u1", false, 5⟩]⟩ (by decide)

/-- C10: a successful toggle leaves the Product collection untouched and
rewrites the HeroImage collection pointwise, changing only the matched
record and only its `isActive` field (its id and `imageUrl` survive in the
rewritten record); every hero with a different id is still stored
unchanged. -/
theorem toggle_frame_effect (id : Nat) (s : Store) (h : HeroImage)
    (hnodup : (s.heroes.map (fun x => x.id)).Nodup)
    (hfind : s.heroes.find? (fun x => x.id == id) = some h) :
    (toggleHeroImage id s).2.products = s.products ∧
    (toggleHeroImage id s).2.heroes
      = s.heroes.map (fun x => if x.id = id then { x with isActive := !x.isActive } else x) ∧
    ∀ x ∈ s.heroes, x.id ≠ id → x ∈ (toggleHeroImage id s).2.heroes := by
  have hid : h.id = id := find?_hero_id hfind
  have hmem : h ∈ s.heroes := List.mem_of_find?_eq_some hfind
  have e1 : (toggleHeroImage id s).2
      = { s with heroes := (s.heroes.map (fun x => if x.id == h.id then { h with isActive := !h.isActive } else x)) } := by
    simp [toggleHeroImage, hfind]
  have hmap : s.heroes.map
      (fun x => if x.id == h.id then { h with isActive := !h.isActive } else x)
      = s.heroes.map
        (fun x => if x.id = id then { x with isActive := !x.isActive } else x) := by
    apply List.map_congr_left
    intro x hx
    by_cases hxid : x.id = id
    · have hx_eq_h : x = h :=
        List.inj_on_of_nodup_map hnodup hx hmem (by rw [hxid, hid])
      subst hx_eq_h
      simp [hid, hxid]
    · have hfalse : (x.id == h.id) = false := by simp [hid, hxid]
      simp [hfalse, hxid]
  refine ⟨by rw [e1], by rw [e1, hmap], ?_⟩
  intro x hx hxid
  have hfalse : (x.id == h.id) = false := by simp [hid, hxid]
  have hxmem := List.mem_map_of_mem
    (fun y : HeroImage => if y.id == h.id then { h with isActive := !h.isActive } else y) hx
  rw [e1]
  simpa [hfalse] using hxmem

/-- Witness for C10: two heroes and one product, toggling hero id 2. -/
theorem toggle_frame_effect_witness :
    (toggleHeroImage 2
        ⟨[⟨9, some "n", none, JsNum.num 3, "m", [], none, JsNum.num 0, 4⟩],
         [⟨1, "u1", false, 5⟩, ⟨2, "u2", true, 6⟩]⟩).2.products
      = [⟨9, some "n", none, JsNum.num 3, "m", [], none, JsNum.num 0, 4⟩] ∧
    (toggleHeroImage 2
        ⟨[⟨9, some "n", none, JsNum.num 3, "m", [], none, JsNum.num 0, 4⟩],
         [⟨1, "u1", false, 5⟩, ⟨2, "u2", true, 6⟩]⟩).2.heroes
      = [⟨1, "u1", false, 5⟩, ⟨2, "u2", true, 6⟩].map
          (fun x => if x.id = 2 then { x with isActive := !x.isActive } else x) ∧
    ∀ x ∈ ([⟨1, "u1", false, 5⟩, ⟨2, "u2", true, 6⟩] : List HeroImage), x.id ≠ 2 →
      x ∈ (toggleHeroImage 2
        ⟨[⟨9, some "n", none, JsNum.num 3, "m", [], none, JsNum.num 0, 4⟩],
         [⟨1, "u1", false, 5⟩, ⟨2, "u2", true, 6⟩]⟩).2.heroes :=
  toggle_frame_effect 2
    ⟨[⟨9, some "n", none, JsNum.num 3, "m", [], none, JsNum.num 0, 4⟩],
     [⟨1, "u1", false, 5⟩, ⟨2, "u2", true, 6⟩]⟩
    ⟨2, "u2", true, 6⟩ (by decide) (by decide)

/-- C6: a product-update request carrying no files leaves the stored
Product's `mainImage` and `otherImages` exactly as they were, while the
supplied body fields are replaced with their new values (`price` and
`quantity` always take their coerced values, the text fields take the
supplied value whenever one was supplied). -/
theorem update_no_files_keeps_images (up : Buffer → Option String)
    (body : ProductBody) (id : Nat) (s : Store) (p : Product)
    (hfind : s.products.find? (fun x => x.id == id) = some p) :
    ∃ p' : Product,
      updateProduct up body [] id s
        = ((200, Body.prod p'),
           { s with products := (s.products.map (fun x => if x.id == id then p' else x)) }) ∧
      p'.mainImage = p.mainImage ∧ p'.otherImages = p.otherImages ∧
      p'.price = jsNumber body.price ∧ p'.quantity = jsNumber body.quantity ∧
      (∀ v, body.name = some v → p'.name = some v) ∧
      (∀ v, body.category = some v → p'.category = some v) ∧
      (∀ v, body.description = some v → p'.description = some v) := by
  refine ⟨applyUpdate p
      { name := body.name
        category := body.category
        price := jsNumber body.price
        description := body.description
        quantity := jsNumber body.quantity
        mainImage := none
        otherImages := none }, ?_, rfl, rfl, rfl, rfl, ?_, ?_, ?_⟩
  · simp [updateProduct, finishUpdate, hfind]
  · intro v hv; simp [applyUpdate, hv]
  · intro v hv; simp [applyUpdate, hv]
  · intro v hv; simp [applyUpdate, hv]

/-- Witness for C6: price updated, images untouched. -/
theorem update_no_files_keeps_images_witness :
    ∃ p' : Product,
      updateProduct (fun b => some b)
          ⟨some "lamp", none, some "25", none, some "2"⟩ [] 9
          ⟨[⟨9, some "old", some "deco", JsNum.num 3, "m", ["o1"], none, JsNum.num 1, 4⟩], []⟩
        = ((200, Body.prod p'),
           { products := ([⟨9, some "old", some "deco", JsNum.num 3, "m", ["o1"], none, JsNum.num 1, 4⟩].map
               (fun x => if x.id == 9 then p' else x)), heroes := [] }) ∧
      p'.mainImage = "m" ∧ p'.otherImages = ["o1"] ∧
      p'.price = jsNumber (some "25") ∧ p'.quantity = jsNumber (some "2") ∧
      (∀ v, (some "lamp" : Option String) = some v → p'.name = some v) ∧
      (∀ v, (none : Option String) = some v → p'.category = some v) ∧
      (∀ v, (none : Option String) = some v → p'.description = some v) :=
  update_no_files_keeps_images (fun b => some b)
    ⟨some "lamp", none, some "25", none, some "2"⟩ 9
    ⟨[⟨9, some "old", some "deco", JsNum.num 3, "m", ["o1"], none, JsNum.num 1, 4⟩], []⟩
    ⟨9, some "old", some "deco", JsNum.num 3, "m", ["o1"], none, JsNum.num 1, 4⟩
    (by decide)

/-- C7: a hero-image-create request with one file persists exactly one new
HeroImage whose `isActive` is true exactly when the submitted value is the
text "true" or the native boolean true, and false for every other value
(omitted, null, other text, numbers, boolean false). -/
theorem createHero_isActive_normalization (up : Buffer → Option String)
    (v : JsVal) (f : Buffer) (url : String) (hup : up f = some url)
    (newId now : Nat) (s : Store) :
    createHeroImage up v (some f) newId now s
      = ((201, Body.hero { id := newId, imageUrl := url, isActive := heroIsActive v, createdAt := now }),
         { s with heroes := s.heroes ++ [{ id := newId, imageUrl := url, isActive := heroIsActive v, createdAt := now }] }) ∧
    (heroIsActive v = true ↔ (v = JsVal.str "true" ∨ v = JsVal.boolean true)) := by
  constructor
  · simp [createHeroImage, hup]
  · cases v <;> simp [heroIsActive]

/-- Witness for C7: submitting the text "true". -/
theorem createHero_isActive_normalization_witness :
    createHeroImage (fun b => some b) (JsVal.str "true") (some "img") 4 11 ⟨[], []⟩
      = ((201, Body.hero { id := 4, imageUrl := "img", isActive := heroIsActive (JsVal.str "true"), createdAt := 11 }),
         { products := [],
           heroes := [] ++ [{ id := 4, imageUrl := "img", isActive := heroIsActive (JsVal.str "true"), createdAt := 11 }] }) ∧
    (heroIsActive (JsVal.str "true") = true
      ↔ (JsVal.str "true" = JsVal.str "true" ∨ JsVal.str "true" = JsVal.boolean true)) :=
  createHero_isActive_normalization (fun b => some b) (JsVal.str "true")
    "img" "img" rfl 4 11 ⟨[], []⟩

/-- C8: listing Products (resp. HeroImages) does not change the store and
returns the full collection — a permutation of the stored documents —
ordered by `createdAt` descending. -/
theorem lists_return_all_sorted_desc (s : Store) :
    listProducts s = ((200, Body.prodList (sortProductsDesc s.products)), s) ∧
    (sortProductsDesc s.products).Perm s.products ∧
    (sortProductsDesc s.products).Pairwise (fun a b => b.createdAt ≤ a.createdAt) ∧
    listHeroImages s = ((200, Body.heroList (sortHeroesDesc s.heroes)), s) ∧
    (sortHeroesDesc s.heroes).Perm s.heroes ∧
    (sortHeroesDesc s.heroes).Pairwise (fun a b => b.createdAt ≤ a.createdAt) := by
  refine ⟨rfl, List.mergeSort_perm _ _, ?_, rfl, List.mergeSort_perm _ _, ?_⟩
  · have := @List.sorted_mergeSort Product
      (fun a b : Product => decide (b.createdAt ≤ a.createdAt))
      (fun a b c hab hbc => by
        simp only [decide_eq_true_eq] at *; exact le_trans hbc hab)
      (fun a b => by
        simpa using Nat.le_total b.createdAt a.createdAt)
      s.products
    simpa [sortProductsDesc] using this
  · have := @List.sorted_mergeSort HeroImage
      (fun a b : HeroImage => decide (b.createdAt ≤ a.createdAt))
      (fun a b c hab hbc => by
        simp only [decide_eq_true_eq] at *; exact le_trans hbc hab)
      (fun a b => by
        simpa using Nat.le_total b.createdAt a.createdAt)
      s.heroes
    simpa [sortHeroesDesc] using this

/-- C9: deleting a Product or HeroImage by id always responds 200 with the
success message, and when the id matches no stored record the store is
returned exactly unchanged while success is still reported. -/
theorem delete_always_reports_success (idp idh : Nat) (s : Store) :
    (deleteProduct idp s).1 = (200, Body.msg "Product deleted") ∧
    (deleteHeroImage idh s).1 = (200, Body.msg "Hero image deleted") ∧
    ((∀ p ∈ s.products, p.id ≠ idp) → (deleteProduct idp s).2 = s) ∧
    ((∀ h ∈ s.heroes, h.id ≠ idh) → (deleteHeroImage idh s).2 = s) := by
  refine ⟨rfl, rfl, ?_, ?_⟩
  · intro habs
    have hfilter : s.products.filter (fun p => p.id != idp) = s.products :=
      List.filter_eq_self.mpr (fun p hp => by simpa using habs p hp)
    simp [deleteProduct, hfilter]
  · intro habs
    have hfilter : s.heroes.filter (fun h => h.id != idh) = s.heroes :=
      List.filter_eq_self.mpr (fun h hh => by simpa using habs h hh)
    simp [deleteHeroImage, hfilter]

/-- Witness for C9: deleting absent ids 7 and 8 from a one-product,
one-hero store. -/
theorem delete_always_reports_success_witness :
    (deleteProduct 7 ⟨[⟨9, some "n", none, JsNum.num 3, "m", [], none, JsNum.num 0, 4⟩],
        [⟨1, "u1", false, 5⟩]⟩).1 = (200, Body.msg "Product deleted") ∧
    (deleteHeroImage 8 ⟨[⟨9, some "n", none, JsNum.num 3, "m", [], none, JsNum.num 0, 4⟩],
        [⟨1, "u1", false, 5⟩]⟩).1 = (200, Body.msg "Hero image deleted") ∧
    ((∀ p ∈ ([⟨9, some "n", none, JsNum.num 3, "m", [], none, JsNum.num 0, 4⟩] : List Product),
        p.id ≠ 7) →
      (deleteProduct 7 ⟨[⟨9, some "n", none, JsNum.num 3, "m", [], none, JsNum.num 0, 4⟩],
        [⟨1, "u1", false, 5⟩]⟩).2
        = ⟨[⟨9, some "n", none, JsNum.num 3, "m", [], none, JsNum.num 0, 4⟩], [⟨1, "u1", false, 5⟩]⟩) ∧
    ((∀ h ∈ ([⟨1, "u1", false, 5⟩] : List HeroImage), h.id ≠ 8) →
      (deleteHeroImage 8 ⟨[⟨9, some "n", none, JsNum.num 3, "m", [], none, JsNum.num 0, 4⟩],
        [⟨1, "u1", false, 5⟩]⟩).2
        = ⟨[⟨9, some "n", none, JsNum.num 3, "m", [], none, JsNum.num 0, 4⟩], [⟨1, "u1", false, 5⟩]⟩) :=
  delete_always_reports_success 7 8
    ⟨[⟨9, some "n", none, JsNum.num 3, "m", [], none, JsNum.num 0, 4⟩], [⟨1, "u1", false, 5⟩]⟩

end Maison
